import Mathlib

/-!
Verification of the data-aggregation pipeline of `src/dashboard.py`
(Egyptian cable exports dashboard).

The shallow embedding below mirrors the pipeline stages of the source:

* the loader `load_data` (lines 88-126): worksheet rows to `ExportRecord`s;
* the aggregator (lines 131-200): `df_country`, `df_region`, the sidebar
  filter and currency toggle, `df_filtered`, `df_region_filtered`;
* the metric deriver: the `YoY Growth %` column (lines 137-140), the KPI
  growths (lines 206-209, 285-289, 346-354), the global rank
  (lines 358-361), new/lost market sets (lines 477, 493);
* the display table and CSV export (lines 515-548).

Python floats are modelled as rationals; a worksheet cell is an
`Option CellValue`; code that can raise returns `Except`/`Option`.
-/

namespace Dashboard

/-- A spreadsheet cell value as openpyxl yields it: a string, a number
(modelled as a rational), or a boolean. `Option CellValue` stands for a
possibly empty cell (`None` in Python). -/
inductive CellValue where
  | str (s : String)
  | num (q : ℚ)
  | boolean (b : Bool)
deriving DecidableEq

/-- Python truthiness of a cell value: the empty string, zero and `False`
are falsy. -/
def CellValue.truthy : CellValue → Bool
  | .str s => s ≠ ""
  | .num q => q ≠ 0
  | .boolean b => b

/-- Truthiness of a possibly empty cell (`None` is falsy). -/
def cellTruthy : Option CellValue → Bool
  | none => false
  | some v => v.truthy

/-- Python `x or 0.0` as the loader applies it to each numeric cell
(lines 100-108): the cell's value if truthy, otherwise the float `0.0`. -/
def orZero (c : Option CellValue) : CellValue :=
  match c with
  | some v => if v.truthy then v else .num 0
  | none => .num 0

/-- Python `x or ''` (lines 112 and 115). -/
def orEmpty (c : Option CellValue) : CellValue :=
  match c with
  | some v => if v.truthy then v else .str ""
  | none => .str ""

/-- Decimal digits of the fraction `rm / d` (with `rm < d`), emitted by long
division until the remainder vanishes or the fuel runs out. -/
def fracDigitsN : ℕ → ℕ → ℕ → String
  | 0, _, _ => ""
  | fuel + 1, rm, d =>
    let dg := rm * 10 / d
    let rm2 := rm * 10 % d
    toString dg ++ (if rm2 = 0 then "" else fracDigitsN fuel rm2 d)

/-- Model of Python `str` on a float, used for `str(code)` in the loader and
for the cells `DataFrame.to_csv` writes. CPython prints the shortest decimal
that round-trips; the model is faithful on values whose decimal expansion is
short and exact (in particular on every value the concrete theorems below
exercise, e.g. `str(50.0) = "50.0"`). -/
def floatStr (q : ℚ) : String :=
  let sgn := if q < 0 then "-" else ""
  let n := q.num.natAbs
  let d := q.den
  let rm := n % d
  sgn ++ toString (n / d) ++ "." ++ (if rm = 0 then "0" else fracDigitsN 17 rm d)

/-- Python `str()` of a cell value. -/
def CellValue.pyStr : CellValue → String
  | .str s => s
  | .num q => floatStr q
  | .boolean b => if b then "True" else "False"

/-- One worksheet row as `ws.iter_rows(values_only=True)` yields it: a tuple
of possibly empty cells. -/
abbrev Row := List (Option CellValue)

/-- `row[i]` on a yielded tuple: the cell when `i` is within the tuple, and
Python's `IndexError` otherwise. -/
def cellAt (r : Row) (i : ℕ) : Except String (Option CellValue) :=
  match r[i]? with
  | some c => .ok c
  | none => .error "IndexError"

/-- The value of an in-range cell; used only under the 14-column width
guard of `parseRow`, where every read `row[0]`..`row[13]` is in range. -/
def cellVal (r : Row) (i : ℕ) : Option CellValue := r.getD i none

/-- One loaded export record, mirroring the dict built in `load_data`
(lines 110-125). `HS Code` is passed through `str()`, the text columns
through `or ''`; each numeric cell keeps whatever value the source holds,
with falsy cells replaced by the float `0.0` via Python `or`. -/
structure ExportRecord where
  hsCode : String
  description : CellValue
  country : CellValue
  region : CellValue
  unit : CellValue
  qty2024 : CellValue
  egp2024 : CellValue
  usd2024 : CellValue
  qty2025 : CellValue
  egp2025 : CellValue
  usd2025 : CellValue
  totalQty : CellValue
  totalEgp : CellValue
  totalUsd : CellValue
deriving DecidableEq

/-- The retention guard of line 109: `if country and region`. -/
def keepRow (r : Row) : Bool :=
  cellTruthy (cellVal r 2) && cellTruthy (cellVal r 3)

/-- The record dict of lines 110-125, built from a row all of whose 14
reads are in range. -/
def mkRecord (r : Row) : ExportRecord :=
  { hsCode :=
      match cellVal r 0 with
      | some v => if v.truthy then v.pyStr else ""
      | none => ""
    description := orEmpty (cellVal r 1)
    country := (cellVal r 2).getD (.str "")
    region := (cellVal r 3).getD (.str "")
    unit := orEmpty (cellVal r 4)
    qty2024 := orZero (cellVal r 5)
    egp2024 := orZero (cellVal r 6)
    usd2024 := orZero (cellVal r 7)
    qty2025 := orZero (cellVal r 8)
    egp2025 := orZero (cellVal r 9)
    usd2025 := orZero (cellVal r 10)
    totalQty := orZero (cellVal r 11)
    totalEgp := orZero (cellVal r 12)
    totalUsd := orZero (cellVal r 13) }

/-- The body of the loader's row loop (lines 95-125). Python reads the 14
fixed columns `row[0]`..`row[13]` unconditionally BEFORE the country/region
guard of line 109, so a tuple shorter than 14 cells raises `IndexError` at
its first out-of-range read, whatever its contents; a tuple of width at
least 14 never raises and is retained exactly when country and region are
both truthy. Every index error carries the same modelled message, so
testing the width first is observationally the sequential reads;
`parseRow_isOk_iff_reads` states the correspondence against `cellAt`. -/
def parseRow (r : Row) : Except String (Option ExportRecord) :=
  if 14 ≤ r.length then .ok (if keepRow r then some (mkRecord r) else none)
  else .error "IndexError"

/-- A worksheet: its column span `ws.max_column` and its stored rows. -/
structure Sheet where
  width : ℕ
  rows : List Row
deriving DecidableEq

/-- A stored row padded to the sheet's column span, as openpyxl pads each
yielded tuple (absent cells become `None`). -/
def padRow (w : ℕ) (r : Row) : Row :=
  r.take w ++ List.replicate (w - r.length) none

/-- `iter_rows(min_row=4, max_row=197, values_only=True)` (line 94): one
tuple per requested worksheet row 4..197 — openpyxl generates the whole
requested range, with empty cells past the stored data — each tuple of
width `ws.max_column`. -/
def iterRows (ws : Sheet) : List Row :=
  (List.range 194).map (fun i => padRow ws.width (ws.rows.getD (3 + i) []))

/-- The loader's row loop over the yielded tuples: one record per retained
row; the first raising row aborts the whole load. -/
def loadRows : List Row → Except String (List ExportRecord)
  | [] => .ok []
  | r :: rest =>
    match parseRow r with
    | .error e => .error e
    | .ok none => loadRows rest
    | .ok (some rec) =>
      match loadRows rest with
      | .error e => .error e
      | .ok recs => .ok (rec :: recs)

/-- A workbook maps sheet names to worksheets. -/
abbrev Workbook := List (String × Sheet)

/-- A file system maps paths to workbooks. -/
abbrev FileSys := List (String × Workbook)

/-- The workbook path hard-coded at line 90. -/
def sourcePath : String := "ES/Countries_Translated_Full_Reviewed.xlsx"

/-- The worksheet name hard-coded at line 91. -/
def sourceSheet : String := "Sheet1"

/-- `load_data` (lines 89-126). `openpyxl.load_workbook` raises when the
file is missing, `wb['Sheet1']` raises `KeyError` when the sheet is
missing, and the row loop raises `IndexError` when the existing sheet
spans fewer than the 14 fixed columns; every raise is fatal and modelled
as `Except.error`. -/
def load_data (fs : FileSys) : Except String (List ExportRecord) :=
  match fs.lookup sourcePath with
  | none => .error "file not found"
  | some wb =>
    match wb.lookup sourceSheet with
    | none => .error "sheet not found"
    | some ws => loadRows (iterRows ws)

/-- A worksheet cell that is blank: absent, or holding the empty string. -/
def blankCell (c : Option CellValue) : Prop := c = none ∨ c = some (.str "")

theorem cellTruthy_of_blank {c : Option CellValue} (h : blankCell c) :
    cellTruthy c = false := by
  rcases h with h | h <;> subst h <;> simp [cellTruthy, CellValue.truthy]

theorem cellAt_isOk_iff (r : Row) (i : ℕ) :
    (cellAt r i).isOk ↔ i < r.length := by
  unfold cellAt
  cases h : r[i]? with
  | none =>
    rw [List.getElem?_eq_none_iff] at h
    simp only [Except.isOk, Except.toBool]
    constructor
    · intro hfalse
      cases hfalse
    · intro hlt
      omega
  | some c =>
    have hlt : i < r.length := by
      by_contra hc
      rw [List.getElem?_eq_none (by omega)] at h
      cases h
    simpa [Except.isOk, Except.toBool] using hlt

theorem parseRow_isOk_iff (r : Row) : (parseRow r).isOk ↔ 14 ≤ r.length := by
  unfold parseRow
  split
  · next h => simp [Except.isOk, Except.toBool, h]
  · next h => simp [Except.isOk, Except.toBool, h]

/-- The width guard of `parseRow` against the per-read model: the loop
body succeeds exactly when all fourteen reads `row[0]`..`row[13]` do. -/
theorem parseRow_isOk_iff_reads (r : Row) :
    (parseRow r).isOk ↔ ∀ i < 14, (cellAt r i).isOk := by
  rw [parseRow_isOk_iff]
  constructor
  · intro h i hi
    rw [cellAt_isOk_iff]
    omega
  · intro h
    have h13 := h 13 (by omega)
    rw [cellAt_isOk_iff] at h13
    omega

theorem parseRow_ok_none {r : Row} (h : parseRow r = .ok none) :
    14 ≤ r.length ∧ keepRow r = false := by
  unfold parseRow at h
  split at h
  · next hw =>
    refine ⟨hw, ?_⟩
    by_cases hk : keepRow r
    · rw [if_pos hk] at h
      injection h with h
      cases h
    · simpa using hk
  · cases h

theorem parseRow_ok_some {r : Row} {rec : ExportRecord}
    (h : parseRow r = .ok (some rec)) :
    14 ≤ r.length ∧ keepRow r = true ∧ rec = mkRecord r := by
  unfold parseRow at h
  split at h
  · next hw =>
    by_cases hk : keepRow r
    · rw [if_pos hk] at h
      injection h with h
      injection h with h
      exact ⟨hw, hk, h.symm⟩
    · rw [if_neg hk] at h
      injection h with h
      cases h
  · cases h

theorem loadRows_isOk_iff (l : List Row) :
    (loadRows l).isOk ↔ ∀ r ∈ l, (parseRow r).isOk := by
  induction l with
  | nil => simp [loadRows, Except.isOk, Except.toBool]
  | cons r rest ih =>
    simp only [loadRows]
    cases hp : parseRow r with
    | error e =>
      dsimp only
      constructor
      · intro h
        exact absurd h (by simp [Except.isOk, Except.toBool])
      · intro h
        have hr := h r (List.mem_cons_self r rest)
        rw [hp] at hr
        exact absurd hr (by simp [Except.isOk, Except.toBool])
    | ok orec =>
      cases orec with
      | none =>
        dsimp only
        rw [ih]
        constructor
        · intro h r2 hr2
          rcases List.mem_cons.mp hr2 with heq | hmem
          · subst heq
            rw [hp]
            simp [Except.isOk, Except.toBool]
          · exact h r2 hmem
        · intro h r2 hmem
          exact h r2 (List.mem_cons_of_mem _ hmem)
      | some rec =>
        cases hrest : loadRows rest with
        | error e =>
          dsimp only
          constructor
          · intro h
            exact absurd h (by simp [Except.isOk, Except.toBool])
          · intro h
            have hrests : (loadRows rest).isOk :=
              ih.mpr (fun r2 hm => h r2 (List.mem_cons_of_mem _ hm))
            rw [hrest] at hrests
            exact absurd hrests (by simp [Except.isOk, Except.toBool])
        | ok recs =>
          dsimp only
          constructor
          · intro _ r2 hr2
            rcases List.mem_cons.mp hr2 with heq | hmem
            · subst heq
              rw [hp]
              simp [Except.isOk, Except.toBool]
            · have hrests : (loadRows rest).isOk := by
                rw [hrest]
                simp [Except.isOk, Except.toBool]
              exact (ih.mp hrests) r2 hmem
          · intro _
            simp [Except.isOk, Except.toBool]

theorem loadRows_ok_length {l : List Row} {recs : List ExportRecord}
    (h : loadRows l = .ok recs) :
    recs.length = (l.filter keepRow).length ∧ recs.length ≤ l.length := by
  induction l generalizing recs with
  | nil =>
    simp only [loadRows] at h
    injection h with h
    subst h
    simp
  | cons r rest ih =>
    simp only [loadRows] at h
    cases hp : parseRow r with
    | error e =>
      rw [hp] at h
      cases h
    | ok orec =>
      rw [hp] at h
      cases orec with
      | none =>
        dsimp only at h
        have hk := (parseRow_ok_none hp).2
        have hih := ih h
        constructor
        · rw [List.filter_cons, hk]
          simpa using hih.1
        · have := hih.2
          simp only [List.length_cons]
          omega
      | some rec =>
        cases hrest : loadRows rest with
        | error e =>
          rw [hrest] at h
          cases h
        | ok recs2 =>
          rw [hrest] at h
          dsimp only at h
          injection h with h
          subst h
          have hk := (parseRow_ok_some hp).2.1
          have hih := ih hrest
          constructor
          · rw [List.filter_cons, hk]
            simpa using hih.1
          · have := hih.2
            simp only [List.length_cons]
            omega

theorem length_padRow (w : ℕ) (r : Row) : (padRow w r).length = w := by
  simp [padRow]
  omega

theorem length_iterRows (ws : Sheet) : (iterRows ws).length = 194 := by
  simp [iterRows]

theorem mem_iterRows_length {ws : Sheet} {r : Row} (h : r ∈ iterRows ws) :
    r.length = ws.width := by
  rcases List.mem_map.mp h with ⟨i, _, rfl⟩
  exact length_padRow _ _

/-- On an existing sheet the load succeeds exactly when the sheet spans at
least the 14 fixed columns (the range 4..197 always yields rows, so a
narrower sheet always raises). -/
theorem loadSheet_isOk_iff (ws : Sheet) :
    (loadRows (iterRows ws)).isOk ↔ 14 ≤ ws.width := by
  rw [loadRows_isOk_iff]
  constructor
  · intro h
    have h0 : padRow ws.width (ws.rows.getD (3 + 0) []) ∈ iterRows ws := by
      refine List.mem_map.mpr ⟨0, ?_, rfl⟩
      simp
    have hp := h _ h0
    rw [parseRow_isOk_iff, length_padRow] at hp
    exact hp
  · intro h r hr
    rw [parseRow_isOk_iff, mem_iterRows_length hr]
    exact h

theorem iterRows_take (ws : Sheet) :
    iterRows { width := ws.width, rows := ws.rows.take 197 } = iterRows ws := by
  unfold iterRows
  refine List.map_congr_left ?_
  intro i hi
  have hi194 : i < 194 := List.mem_range.mp hi
  have hgd : (ws.rows.take 197).getD (3 + i) [] = ws.rows.getD (3 + i) [] := by
    rw [List.getD_eq_getElem?_getD, List.getD_eq_getElem?_getD,
      List.getElem?_take_of_lt (by omega)]
  rw [hgd]

/-- A worksheet whose column span is 5: every yielded tuple has width 5,
so the read `row[5]` at line 100 is out of range. -/
def narrowSheet : Sheet := { width := 5, rows := [] }

/-- A file system whose workbook and `Sheet1` both exist, holding the
narrow sheet. -/
def narrowFs : FileSys := [(sourcePath, [(sourceSheet, narrowSheet)])]

/-- C8 counterexample: the workbook file and the worksheet both exist, yet
the load fails — `iter_rows` yields width-5 tuples for rows 4..197 and the
unconditional `row[5]` read raises `IndexError` on the first of them — so
"fails only when the file or sheet does not exist, and succeeds for every
workbook whose file and sheet exist" is false of the code. -/
theorem C8_counterexample :
    narrowFs.lookup sourcePath = some [(sourceSheet, narrowSheet)] ∧
    [(sourceSheet, narrowSheet)].lookup sourceSheet = some narrowSheet ∧
    (load_data narrowFs).isOk = false :=
  ⟨rfl, rfl, rfl⟩

/-- C8 amended: the loader contract. Loading succeeds exactly when the
workbook file exists, the worksheet exists, AND the sheet spans at least
the 14 fixed columns (a narrower existing sheet raises `IndexError`); on
a wide-enough row a blank country or region cell skips the row, a missing
numeric cell becomes the float `0.0` rather than an error, and a
successful load returns exactly one record per retained yielded row. -/
theorem C8_loader_contract (fs : FileSys) (ws : Sheet) (r : Row)
    (rec : ExportRecord) :
    ((load_data fs).isOk ↔
      ∃ wb, fs.lookup sourcePath = some wb ∧
        ∃ sh, wb.lookup sourceSheet = some sh ∧ 14 ≤ sh.width) ∧
    (14 ≤ r.length →
      blankCell (cellVal r 2) ∨ blankCell (cellVal r 3) →
        parseRow r = .ok none) ∧
    (parseRow r = .ok (some rec) →
      (cellVal r 5 = none → rec.qty2024 = .num 0) ∧
      (cellVal r 6 = none → rec.egp2024 = .num 0) ∧
      (cellVal r 7 = none → rec.usd2024 = .num 0) ∧
      (cellVal r 8 = none → rec.qty2025 = .num 0) ∧
      (cellVal r 9 = none → rec.egp2025 = .num 0) ∧
      (cellVal r 10 = none → rec.usd2025 = .num 0) ∧
      (cellVal r 11 = none → rec.totalQty = .num 0) ∧
      (cellVal r 12 = none → rec.totalEgp = .num 0) ∧
      (cellVal r 13 = none → rec.totalUsd = .num 0)) ∧
    (∀ recs, loadRows (iterRows ws) = .ok recs →
      recs.length = ((iterRows ws).filter keepRow).length) := by
  refine ⟨?_, ?_, ?_, ?_⟩
  · cases hf : fs.lookup sourcePath with
    | none =>
      simp only [load_data, hf]
      constructor
      · intro h
        exact absurd h (by simp [Except.isOk, Except.toBool])
      · rintro ⟨wb, hw, _⟩
        cases hw
    | some wb =>
      cases hs : wb.lookup sourceSheet with
      | none =>
        simp only [load_data, hf, hs]
        constructor
        · intro h
          exact absurd h (by simp [Except.isOk, Except.toBool])
        · rintro ⟨wb2, hw, sh, hsh, _⟩
          injection hw with hw
          subst hw
          rw [hs] at hsh
          cases hsh
      | some s =>
        simp only [load_data, hf, hs]
        constructor
        · intro h
          exact ⟨wb, rfl, s, hs, (loadSheet_isOk_iff s).mp h⟩
        · rintro ⟨wb2, hw, sh, hsh, hwidth⟩
          injection hw with hw
          subst hw
          rw [hs] at hsh
          injection hsh with hsh
          subst hsh
          exact (loadSheet_isOk_iff _).mpr hwidth
  · intro h14 hblank
    unfold parseRow
    rw [if_pos h14]
    have hk : keepRow r = false := by
      unfold keepRow
      rcases hblank with h | h <;> rw [cellTruthy_of_blank h] <;> simp
    rw [hk]
    simp
  · intro h
    rcases parseRow_ok_some h with ⟨-, -, rfl⟩
    refine ⟨?_, ?_, ?_, ?_, ?_, ?_, ?_, ?_, ?_⟩ <;>
      · intro hc
        simp [mkRecord, hc, orZero]
  · intro recs h
    exact (loadRows_ok_length h).1

/-- A worksheet row exercising the C8 contract: columns 8 and 9 are missing
and default to `0.0`. -/
def demoRow : Row :=
  [some (.str "854449"), some (.str "insulated cable"), some (.str "Germany"),
   some (.str "Europe"), some (.str "KG"), some (.num 10), some (.num 5000),
   some (.num 100), none, none, some (.num 150), some (.num 20),
   some (.num 11000), some (.num 250)]

/-- A 14-cell row whose country cell holds the empty string: skipped. -/
def demoBlankRow : Row :=
  [some (.str "854449"), none, some (.str ""), some (.str "Europe"), none,
   none, none, none, none, none, none, none, none, none]

/-- A 14-column worksheet whose first data row (worksheet row 4) is
`demoRow`. -/
def demoSheet : Sheet := { width := 14, rows := [[], [], [], demoRow] }

/-- A file system holding the expected workbook and sheet. -/
def demoFs : FileSys := [(sourcePath, [(sourceSheet, demoSheet)])]

/-- The record the loader builds from `demoRow`. -/
def demoRec : ExportRecord :=
  { hsCode := "854449", description := .str "insulated cable",
    country := .str "Germany", region := .str "Europe", unit := .str "KG",
    qty2024 := .num 10, egp2024 := .num 5000, usd2024 := .num 100,
    qty2025 := .num 0, egp2025 := .num 0, usd2025 := .num 150,
    totalQty := .num 20, totalEgp := .num 11000, totalUsd := .num 250 }

theorem C8_loader_contract_witness :
    (load_data demoFs).isOk ∧ parseRow demoBlankRow = .ok none ∧
    demoRec.qty2025 = CellValue.num 0 := by
  refine ⟨?_, ?_, ?_⟩
  · exact (C8_loader_contract demoFs demoSheet demoRow demoRec).1.mpr
      ⟨[(sourceSheet, demoSheet)], rfl, demoSheet, rfl, by decide⟩
  · exact (C8_loader_contract demoFs demoSheet demoBlankRow demoRec).2.1
      (by decide) (Or.inl (Or.inr rfl))
  · exact ((C8_loader_contract demoFs demoSheet demoRow demoRec).2.2.1
      rfl).2.2.2.1 rfl

/-- C10: the loader iterates exactly the fixed window of worksheet rows 4
through 197, so a successful load returns at most 194 records, and stored
rows past row 197 never influence the result. -/
theorem C10_loader_fixed_range (ws : Sheet) :
    (∀ recs, loadRows (iterRows ws) = .ok recs → recs.length ≤ 194) ∧
    loadRows (iterRows ws) =
      loadRows (iterRows { width := ws.width, rows := ws.rows.take 197 }) := by
  constructor
  · intro recs h
    have hle := (loadRows_ok_length h).2
    rw [length_iterRows] at hle
    exact hle
  · rw [iterRows_take]

theorem C10_loader_fixed_range_witness :
    ([demoRec] : List ExportRecord).length ≤ 194 :=
  (C10_loader_fixed_range demoSheet).1 [demoRec] (by rfl)

/-- One row of the loaded table `df_raw` in the normal, all-numeric case:
the nine metric columns hold floats (modelled as rationals). The
aggregation pipeline of lines 131-200 is stated over arbitrary such
tables. -/
structure DataRow where
  hsCode : String
  description : String
  country : String
  region : String
  unit : String
  qty2024 : ℚ
  egp2024 : ℚ
  usd2024 : ℚ
  qty2025 : ℚ
  egp2025 : ℚ
  usd2025 : ℚ
  totalQty : ℚ
  totalEgp : ℚ
  totalUsd : ℚ
deriving DecidableEq

/-- The three-way growth policy of the `YoY Growth %` column (lines
137-140): divide when the 2024 value exceeds 0.001, else report 100.0 for a
new market and 0.0 for no activity. -/
def yoyPolicy (v2024 v2025 : ℚ) : ℚ :=
  if v2024 > 0.001 then (v2025 - v2024) / v2024 * 100
  else if v2025 > 0 then 100 else 0

/-- One row of `df_country` (lines 131-140): the `(Region, Country)` group
sums plus the derived `YoY Growth %` column. -/
structure CountryRow where
  region : String
  country : String
  usd2024 : ℚ
  usd2025 : ℚ
  totalUsd : ℚ
  egp2024 : ℚ
  egp2025 : ℚ
  totalEgp : ℚ
  qty2024 : ℚ
  qty2025 : ℚ
  totalQty : ℚ
  yoyGrowth : ℚ
deriving DecidableEq

/-- Lexicographic order on `(Region, Country)` keys;
`groupby(['Region', 'Country'])` sorts the group keys. -/
def keyLe (a b : String × String) : Prop :=
  a.1 < b.1 ∨ (a.1 = b.1 ∧ a.2 ≤ b.2)

instance : DecidableRel keyLe := fun a b => by
  unfold keyLe
  exact inferInstance

/-- The grouping key of a raw row. -/
def rowKey (r : DataRow) : String × String := (r.region, r.country)

/-- The distinct `(Region, Country)` keys of the table, in the sorted order
pandas `groupby` emits groups. -/
def countryKeys (recs : List DataRow) : List (String × String) :=
  List.insertionSort keyLe ((recs.map rowKey).dedup)

/-- The raw rows of one `(Region, Country)` group. -/
def keyGroup (recs : List DataRow) (k : String × String) : List DataRow :=
  recs.filter (fun r => rowKey r = k)

/-- Sum of one numeric column over a list of raw rows. -/
def sumCol (rows : List DataRow) (f : DataRow → ℚ) : ℚ := (rows.map f).sum

/-- The `df_country` row built for one key: every numeric column summed
over the group (the `agg` dict of lines 131-135) and `YoY Growth %` derived
from the summed USD columns by the lambda of lines 137-140. -/
def mkCountryRow (recs : List DataRow) (k : String × String) : CountryRow :=
  let g := keyGroup recs k
  { region := k.1
    country := k.2
    usd2024 := sumCol g (·.usd2024)
    usd2025 := sumCol g (·.usd2025)
    totalUsd := sumCol g (·.totalUsd)
    egp2024 := sumCol g (·.egp2024)
    egp2025 := sumCol g (·.egp2025)
    totalEgp := sumCol g (·.totalEgp)
    qty2024 := sumCol g (·.qty2024)
    qty2025 := sumCol g (·.qty2025)
    totalQty := sumCol g (·.totalQty)
    yoyGrowth := yoyPolicy (sumCol g (·.usd2024)) (sumCol g (·.usd2025)) }

/-- `df_country` (lines 131-140). -/
def countryRollup (recs : List DataRow) : List CountryRow :=
  (countryKeys recs).map (mkCountryRow recs)

/-- One row of `df_region` (lines 142-146): per-region sums of the six
value columns and the `Countries` count (`'Country': 'count'` counts the
group's rows). -/
structure RegionRow where
  region : String
  usd2024 : ℚ
  usd2025 : ℚ
  totalUsd : ℚ
  egp2024 : ℚ
  egp2025 : ℚ
  totalEgp : ℚ
  countries : ℕ
deriving DecidableEq

/-- The rollup rows of one region group. -/
def regionGroup (crows : List CountryRow) (rg : String) : List CountryRow :=
  crows.filter (fun r => r.region = rg)

/-- The distinct regions of a rollup, sorted as `groupby` emits them. -/
def regionKeys (crows : List CountryRow) : List String :=
  List.insertionSort (fun a b : String => a ≤ b) ((crows.map (·.region)).dedup)

/-- Sum of one numeric column over a list of rollup rows. -/
def sumColC (rows : List CountryRow) (f : CountryRow → ℚ) : ℚ :=
  (rows.map f).sum

/-- The `df_region` row built for one region. -/
def mkRegionRow (crows : List CountryRow) (rg : String) : RegionRow :=
  let g := regionGroup crows rg
  { region := rg
    usd2024 := sumColC g (·.usd2024)
    usd2025 := sumColC g (·.usd2025)
    totalUsd := sumColC g (·.totalUsd)
    egp2024 := sumColC g (·.egp2024)
    egp2025 := sumColC g (·.egp2025)
    totalEgp := sumColC g (·.totalEgp)
    countries := g.length }

/-- `df_region` (lines 142-146). -/
def regionRollup (crows : List CountryRow) : List RegionRow :=
  (regionKeys crows).map (mkRegionRow crows)

/-- The active-currency column selectors `val_2024` / `val_2025` /
`val_total` (lines 186-188); `usdMode` is `currency.startswith("USD")`
(line 184). -/
def val2024 (usdMode : Bool) (r : CountryRow) : ℚ :=
  if usdMode then r.usd2024 else r.egp2024

/-- Line 187. -/
def val2025 (usdMode : Bool) (r : CountryRow) : ℚ :=
  if usdMode then r.usd2025 else r.egp2025

/-- Line 188. -/
def valTotal (usdMode : Bool) (r : CountryRow) : ℚ :=
  if usdMode then r.totalUsd else r.totalEgp

/-- `df_filtered` (lines 196-197): the rollup rows whose region is among
the selected regions AND whose country is among the selected countries. -/
def filteredView (crows : List CountryRow) (selRegions selCountries : List String) :
    List CountryRow :=
  crows.filter (fun r => decide (r.region ∈ selRegions) && decide (r.country ∈ selCountries))

/-- One row of `df_region_filtered` (lines 198-200): region sums of the
three active-currency columns plus the `Countries` count. -/
structure RegionRowF where
  region : String
  v2024 : ℚ
  v2025 : ℚ
  vtotal : ℚ
  countries : ℕ
deriving DecidableEq

/-- The `df_region_filtered` row built for one region. -/
def mkRegionRowF (frows : List CountryRow) (usdMode : Bool) (rg : String) :
    RegionRowF :=
  let g := regionGroup frows rg
  { region := rg
    v2024 := sumColC g (val2024 usdMode)
    v2025 := sumColC g (val2025 usdMode)
    vtotal := sumColC g (valTotal usdMode)
    countries := g.length }

/-- `df_region_filtered` (lines 198-200): re-derived by grouping the
filtered rows by region over the active currency columns. -/
def filteredRegionRollup (frows : List CountryRow) (usdMode : Bool) :
    List RegionRowF :=
  (regionKeys frows).map (mkRegionRowF frows usdMode)

/-- `new_markets` (line 477): filtered rows with a 2024 value below 0.001
and a positive 2025 value, in the active currency. -/
def newMarkets (frows : List CountryRow) (usdMode : Bool) : List CountryRow :=
  frows.filter (fun r =>
    decide (val2024 usdMode r < 0.001) && decide (val2025 usdMode r > 0))

/-- `lost_markets` (line 493): filtered rows with a positive 2024 value and
a 2025 value below 0.001, in the active currency. -/
def lostMarkets (frows : List CountryRow) (usdMode : Bool) : List CountryRow :=
  frows.filter (fun r =>
    decide (val2024 usdMode r > 0) && decide (val2025 usdMode r < 0.001))

/-- pandas `sort_values(by, ascending=False)` computes a stable ascending
argsort of the key and reverses it (`indexer[::-1]`), so the model is a
stable ascending sort followed by `reverse`; ties therefore come out in
reversed original order. (numpy's default introsort falls back to a stable
insertion sort below 16 elements, which covers every concrete instance
stated below.) -/
def sortDescBy (key : CountryRow → ℚ) (l : List CountryRow) : List CountryRow :=
  (List.insertionSort (fun a b => key a ≤ key b) l).reverse

/-- Lines 358-361: rank the unfiltered `df_country` descending by the
active-currency total, label the sorted rows 1..n, and look up the first
row of the named country; `none` models the `'-'` sentinel returned when
the country is absent. -/
def countryRank (crows : List CountryRow) (usdMode : Bool) (pick : String) :
    Option ℕ :=
  ((sortDescBy (valTotal usdMode) crows).findIdx? (fun r => r.country = pick)).map
    (· + 1)

/-- Division with Python's `ZeroDivisionError` made explicit. -/
def safeDiv (a b : ℚ) : Option ℚ := if b = 0 then none else some (a / b)

/-- `yoy_overall` (lines 207-209): overall KPI growth of the filtered table
in the active currency. Note the source guard is `total_2024 > 0` with
fallback 0, not the three-way policy of the per-row column. -/
def yoyOverall (frows : List CountryRow) (usdMode : Bool) : Option ℚ :=
  let t24 := sumColC frows (val2024 usdMode)
  let t25 := sumColC frows (val2025 usdMode)
  if t24 > 0 then (safeDiv (t25 - t24) t24).map (· * 100) else some 0

/-- `reg_yoy` (lines 285-289): growth of the region picked in the By-Region
tab, over the filtered rows of that region. Guard `reg_2024 > 0`,
fallback 0. -/
def regYoy (frows : List CountryRow) (usdMode : Bool) (pick : String) :
    Option ℚ :=
  let g := frows.filter (fun r => r.region = pick)
  let t24 := sumColC g (val2024 usdMode)
  let t25 := sumColC g (val2025 usdMode)
  if t24 > 0 then (safeDiv (t25 - t24) t24).map (· * 100) else some 0

/-- `ctry_yoy` (lines 346-354): growth of the picked country, summed over
the raw records of that country. Guard `ctry_2024 > 0.001`, fallback 0. -/
def ctryYoy (recs : List DataRow) (usdMode : Bool) (pick : String) :
    Option ℚ :=
  let g := recs.filter (fun r => r.country = pick)
  let t24 := (g.map (fun r => if usdMode then r.usd2024 else r.egp2024)).sum
  let t25 := (g.map (fun r => if usdMode then r.usd2025 else r.egp2025)).sum
  if t24 > 0.001 then (safeDiv (t25 - t24) t24).map (· * 100) else some 0

/-- One row of `df_display` (lines 515-517): the six displayed columns. -/
structure DisplayRow where
  region : String
  country : String
  v2024 : ℚ
  v2025 : ℚ
  vtotal : ℚ
  growth : ℚ
deriving DecidableEq

/-- The display row projected from one filtered rollup row. -/
def toDisplayRow (usdMode : Bool) (r : CountryRow) : DisplayRow :=
  { region := r.region, country := r.country, v2024 := val2024 usdMode r,
    v2025 := val2025 usdMode r, vtotal := valTotal usdMode r,
    growth := r.yoyGrowth }

/-- `df_display` (lines 515-520): the filtered table's six columns, sorted
descending by the total column; the index 1..n becomes the `Rank` label. -/
def displayTable (frows : List CountryRow) (usdMode : Bool) : List DisplayRow :=
  (sortDescBy (valTotal usdMode) frows).map (toDisplayRow usdMode)

/-- A CSV field as pandas writes it: quoted when it contains the
separator. -/
def csvEscape (s : String) : String :=
  if ',' ∈ s.toList then "\"" ++ s ++ "\"" else s

/-- `currency_label` (line 190). -/
def currencyLabel (usdMode : Bool) : String := if usdMode then "M-USD" else "M-EGP"

/-- The header line of `df_display.to_csv()` (line 542): the index name
`Rank` followed by the renamed columns of lines 516-517. -/
def csvHeader (usdMode : Bool) : String :=
  String.intercalate ","
    ["Rank", "Region", "Country",
     "2024 (" ++ currencyLabel usdMode ++ ")",
     "2025 (" ++ currencyLabel usdMode ++ ")",
     "Total (" ++ currencyLabel usdMode ++ ")",
     "YoY Growth %"]

/-- The fields of the data line written for the row at 0-based position
`i` of `df_display`: the 1-based rank index, the two key columns, and the
four numeric columns in pandas' default (unformatted) float rendering. -/
def csvFields (i : ℕ) (d : DisplayRow) : List String :=
  [toString (i + 1), csvEscape d.region, csvEscape d.country,
   floatStr d.v2024, floatStr d.v2025, floatStr d.vtotal, floatStr d.growth]

/-- One data line of the CSV. -/
def csvLine (i : ℕ) (d : DisplayRow) : String :=
  String.intercalate "," (csvFields i d)

/-- `df_display.to_csv()` (line 542) as a list of lines. -/
def csvLines (frows : List CountryRow) (usdMode : Bool) : List String :=
  csvHeader usdMode ::
    (displayTable frows usdMode).enum.map (fun p => csvLine p.1 p.2)

/-- Round `n / d` half to even (for `d ≠ 0`), as Python's fixed-point
`format` rounds. -/
def roundHalfEvenN (n d : ℕ) : ℕ :=
  let ip := n / d
  let rm := n % d
  if 2 * rm < d then ip
  else if d < 2 * rm then ip + 1
  else if ip % 2 = 0 then ip else ip + 1

/-- Digit grouping of the `','` format flag: a comma every three digits,
counted from the right. -/
def groupChunks : List Char → List Char
  | a :: b :: c :: d :: rest => a :: b :: c :: ',' :: groupChunks (d :: rest)
  | l => l

/-- Digit grouping applied to a digit string. -/
def groupDigits (s : String) : String :=
  String.mk (groupChunks s.toList.reverse).reverse

/-- The styled table's currency format of lines 524-526 (Python
`'{:,.2f}'`): thousands grouping and exactly two decimals. Applied only by
`df_display.style.format` for on-screen display. -/
def fmtFixed2 (q : ℚ) : String :=
  let sgn := if q < 0 then "-" else ""
  let c := roundHalfEvenN (q.num.natAbs * 100) q.den
  let fp := c % 100
  sgn ++ groupDigits (toString (c / 100)) ++ "." ++
    (if fp < 10 then "0" ++ toString fp else toString fp)

/-- The styled table's growth format of line 527 (Python `'{:+.1f}%'`):
explicit sign and exactly one decimal. Applied only by
`df_display.style.format` for on-screen display. -/
def fmtSigned1 (q : ℚ) : String :=
  let sgn := if q < 0 then "-" else "+"
  let c := roundHalfEvenN (q.num.natAbs * 10) q.den
  sgn ++ toString (c / 10) ++ "." ++ toString (c % 10) ++ "%"

theorem yoyGrowth_eq_policy {recs : List DataRow} {r : CountryRow}
    (h : r ∈ countryRollup recs) :
    r.yoyGrowth = yoyPolicy r.usd2024 r.usd2025 := by
  rcases List.mem_map.mp h with ⟨k, _, rfl⟩
  rfl

/-- C1: every `df_country` row's derived `YoY Growth %` equals the
three-way policy applied to the row's own 2024/2025 USD sums, and the
policy yields the four sample values the spec lists. -/
theorem C1_country_growth_policy (recs : List DataRow) (r : CountryRow)
    (h : r ∈ countryRollup recs) :
    (r.yoyGrowth =
      if r.usd2024 > 0.001 then (r.usd2025 - r.usd2024) / r.usd2024 * 100
      else if r.usd2025 > 0 then 100 else 0) ∧
    yoyPolicy 0 0 = 0 ∧ yoyPolicy 0 5 = 100 ∧
    yoyPolicy 100 150 = 50 ∧ yoyPolicy 100 50 = -50 := by
  refine ⟨yoyGrowth_eq_policy h, ?_, ?_, ?_, ?_⟩ <;> norm_num [yoyPolicy]

/-- A raw demo row for concrete instantiations. -/
def demoDataRow : DataRow :=
  { hsCode := "854449", description := "insulated cable", country := "Germany",
    region := "Europe", unit := "KG", qty2024 := 10, egp2024 := 5000,
    usd2024 := 100, qty2025 := 12, egp2025 := 9000, usd2025 := 150,
    totalQty := 22, totalEgp := 14000, totalUsd := 250 }

/-- The single rollup row of the one-row demo table. -/
def demoCountryRow : CountryRow := mkCountryRow [demoDataRow] ("Europe", "Germany")

theorem demoCountryRow_mem : demoCountryRow ∈ countryRollup [demoDataRow] := by
  show demoCountryRow ∈ [demoCountryRow]
  exact List.mem_singleton_self _

theorem C1_country_growth_policy_witness :
    demoCountryRow.yoyGrowth =
      (if demoCountryRow.usd2024 > 0.001
        then (demoCountryRow.usd2025 - demoCountryRow.usd2024) / demoCountryRow.usd2024 * 100
        else if demoCountryRow.usd2025 > 0 then 100 else 0) ∧
    yoyPolicy 0 0 = 0 ∧ yoyPolicy 0 5 = 100 ∧
    yoyPolicy 100 150 = 50 ∧ yoyPolicy 100 50 = -50 :=
  C1_country_growth_policy [demoDataRow] demoCountryRow demoCountryRow_mem

/-- C3: `df_filtered` retains exactly the rollup rows passing the region
AND country selection (a conjunction), and every region of the re-derived
`df_region_filtered` occurs among the retained rows. -/
theorem C3_filter_conjunction (crows : List CountryRow)
    (selR selC : List String) (m : Bool) (r : CountryRow) (rr : RegionRowF)
    (hrr : rr ∈ filteredRegionRollup (filteredView crows selR selC) m) :
    (r ∈ filteredView crows selR selC ↔
      r ∈ crows ∧ r.region ∈ selR ∧ r.country ∈ selC) ∧
    (∃ r2 ∈ filteredView crows selR selC, r2.region = rr.region) := by
  constructor
  · simp [filteredView, List.mem_filter, and_assoc]
  · rcases List.mem_map.mp hrr with ⟨rg, hrg, rfl⟩
    have hdd : rg ∈ (List.map (·.region) (filteredView crows selR selC)).dedup := by
      simpa [regionKeys, List.mem_insertionSort] using hrg
    rcases List.mem_map.mp (List.mem_dedup.mp hdd) with ⟨r2, hr2, hr2r⟩
    exact ⟨r2, hr2, hr2r⟩

/-- A rollup demo row for concrete instantiations. -/
def crowDemo : CountryRow :=
  { region := "Europe", country := "Germany", usd2024 := 100, usd2025 := 150,
    totalUsd := 250, egp2024 := 5000, egp2025 := 9000, totalEgp := 14000,
    qty2024 := 10, qty2025 := 12, totalQty := 22, yoyGrowth := 50 }

theorem C3_filter_conjunction_witness :
    (crowDemo ∈ filteredView [crowDemo] ["Europe"] ["Germany"] ↔
      crowDemo ∈ [crowDemo] ∧ crowDemo.region ∈ ["Europe"] ∧
        crowDemo.country ∈ ["Germany"]) ∧
    (∃ r2 ∈ filteredView [crowDemo] ["Europe"] ["Germany"],
      r2.region = (mkRegionRowF (filteredView [crowDemo] ["Europe"] ["Germany"])
        true "Europe").region) :=
  C3_filter_conjunction [crowDemo] ["Europe"] ["Germany"] true crowDemo
    (mkRegionRowF (filteredView [crowDemo] ["Europe"] ["Germany"]) true "Europe")
    (by
      show _ ∈ [mkRegionRowF (filteredView [crowDemo] ["Europe"] ["Germany"]) true "Europe"]
      exact List.mem_singleton_self _)

/-- A rollup row with both yearly USD values strictly inside (0, 0.001),
the floating-noise band the 0.001 threshold is meant to absorb. -/
def microRow : CountryRow :=
  { region := "Africa", country := "Chad", usd2024 := 0.0005, usd2025 := 0.0005,
    totalUsd := 0.001, egp2024 := 0.02, egp2025 := 0.02, totalEgp := 0.04,
    qty2024 := 1, qty2025 := 1, totalQty := 2, yoyGrowth := 100 }

/-- C6 counterexample: a country whose 2024 and 2025 values both lie
strictly between 0 and 0.001 is a member of the new-market set AND of the
lost-market set, so the two sets are not disjoint. -/
theorem C6_counterexample :
    microRow ∈ newMarkets [microRow] true ∧
    microRow ∈ lostMarkets [microRow] true ∧
    ¬ List.Disjoint (newMarkets [microRow] true) (lostMarkets [microRow] true) := by
  have h1 : microRow ∈ newMarkets [microRow] true := by
    refine List.mem_filter.mpr ⟨List.mem_singleton_self _, ?_⟩
    norm_num [val2024, val2025, microRow]
  have h2 : microRow ∈ lostMarkets [microRow] true := by
    refine List.mem_filter.mpr ⟨List.mem_singleton_self _, ?_⟩
    norm_num [val2024, val2025, microRow]
  exact ⟨h1, h2, fun hd => hd h1 h2⟩

/-- C6 amended: a filtered row belongs to both the new-market and the
lost-market set exactly when both of its yearly values in the active
currency lie strictly between 0 and 0.001; outside that noise band the two
sets are disjoint. -/
theorem C6_market_sets_overlap (frows : List CountryRow) (m : Bool)
    (r : CountryRow) :
    (r ∈ newMarkets frows m ∧ r ∈ lostMarkets frows m) ↔
      (r ∈ frows ∧ 0 < val2024 m r ∧ val2024 m r < 0.001 ∧
        0 < val2025 m r ∧ val2025 m r < 0.001) := by
  simp only [newMarkets, lostMarkets, List.mem_filter, Bool.and_eq_true,
    decide_eq_true_eq, gt_iff_lt]
  tauto

theorem C6_market_sets_overlap_witness :
    microRow ∈ newMarkets [microRow] true ∧
    microRow ∈ lostMarkets [microRow] true :=
  (C6_market_sets_overlap [microRow] true microRow).mpr
    ⟨List.mem_singleton_self _, by norm_num [val2024, microRow],
     by norm_num [val2024, microRow], by norm_num [val2025, microRow],
     by norm_num [val2025, microRow]⟩

theorem countryRollup_keys_eq (recs : List DataRow) :
    (countryRollup recs).map (fun r => (r.region, r.country)) =
      countryKeys recs := by
  unfold countryRollup
  rw [List.map_map]
  have hc : ((fun r : CountryRow => (r.region, r.country)) ∘ mkCountryRow recs) =
      fun k : String × String => k := rfl
  rw [hc, List.map_id']

theorem countryRollup_keys_nodup (recs : List DataRow) :
    ((countryRollup recs).map (fun r => (r.region, r.country))).Nodup := by
  rw [countryRollup_keys_eq]
  exact ((List.perm_insertionSort keyLe _).nodup_iff).mpr (List.nodup_dedup _)

theorem regionGroup_countries_nodup (crows : List CountryRow) (rg : String)
    (h : (crows.map (fun r => (r.region, r.country))).Nodup) :
    ((regionGroup crows rg).map (·.country)).Nodup := by
  induction crows with
  | nil => simp [regionGroup]
  | cons a l ih =>
    rw [List.map_cons, List.nodup_cons] at h
    by_cases hr : a.region = rg
    · simp only [regionGroup] at ih ⊢
      have hstep : List.filter (fun r : CountryRow => decide (r.region = rg)) (a :: l)
          = a :: List.filter (fun r : CountryRow => decide (r.region = rg)) l := by
        simp [List.filter_cons, hr]
      rw [hstep, List.map_cons, List.nodup_cons]
      refine ⟨?_, ih h.2⟩
      intro hmem
      rcases List.mem_map.mp hmem with ⟨b, hb, hbc⟩
      rcases List.mem_filter.mp hb with ⟨hbl, hbr⟩
      apply h.1
      refine List.mem_map.mpr ⟨b, hbl, ?_⟩
      have hbrg : b.region = rg := by simpa using hbr
      rw [hbrg, hbc, hr]
    · simp only [regionGroup] at ih ⊢
      have hstep : List.filter (fun r : CountryRow => decide (r.region = rg)) (a :: l)
          = List.filter (fun r : CountryRow => decide (r.region = rg)) l := by
        simp [List.filter_cons, hr]
      rw [hstep]
      exact ih h.2

theorem countries_count_eq_dedup {crows : List CountryRow} (rg : String)
    (h : (crows.map (fun r => (r.region, r.country))).Nodup) :
    (regionGroup crows rg).length =
      ((regionGroup crows rg).map (·.country)).dedup.length := by
  rw [(regionGroup_countries_nodup crows rg h).dedup, List.length_map]

theorem filteredView_keys_nodup (recs : List DataRow) (selR selC : List String) :
    ((filteredView (countryRollup recs) selR selC).map
      (fun r => (r.region, r.country))).Nodup :=
  List.Nodup.sublist (List.Sublist.map _ (List.filter_sublist _))
    (countryRollup_keys_nodup recs)

/-- C7: the `Countries` field of the region rollup and of the filtered
region rollup equals the number of distinct countries among that region's
rollup rows: the country rollup is keyed by (region, country), so the
`'count'` aggregate of each region group equals its distinct-country
count. -/
theorem C7_region_country_count (recs : List DataRow) (selR selC : List String)
    (m : Bool) (rr : RegionRow) (rrf : RegionRowF)
    (h1 : rr ∈ regionRollup (countryRollup recs))
    (h2 : rrf ∈ filteredRegionRollup (filteredView (countryRollup recs) selR selC) m) :
    rr.countries =
      ((regionGroup (countryRollup recs) rr.region).map (·.country)).dedup.length ∧
    rrf.countries =
      ((regionGroup (filteredView (countryRollup recs) selR selC) rrf.region).map
        (·.country)).dedup.length := by
  constructor
  · rcases List.mem_map.mp h1 with ⟨rg, _, rfl⟩
    exact countries_count_eq_dedup rg (countryRollup_keys_nodup recs)
  · rcases List.mem_map.mp h2 with ⟨rg, _, rfl⟩
    exact countries_count_eq_dedup rg (filteredView_keys_nodup recs selR selC)

/-- The demo table's region rollup row. -/
def demoRegionRow : RegionRow := mkRegionRow (countryRollup [demoDataRow]) "Europe"

/-- The demo table's filtered rows under the full selection. -/
def demoFilteredRows : List CountryRow :=
  filteredView (countryRollup [demoDataRow]) ["Europe"] ["Germany"]

/-- The demo table's filtered region rollup row. -/
def demoRegionRowF : RegionRowF := mkRegionRowF demoFilteredRows true "Europe"

theorem C7_region_country_count_witness :
    demoRegionRow.countries =
      ((regionGroup (countryRollup [demoDataRow]) demoRegionRow.region).map
        (·.country)).dedup.length ∧
    demoRegionRowF.countries =
      ((regionGroup demoFilteredRows demoRegionRowF.region).map
        (·.country)).dedup.length :=
  C7_region_country_count [demoDataRow] ["Europe"] ["Germany"] true
    demoRegionRow demoRegionRowF
    (by
      show demoRegionRow ∈ [demoRegionRow]
      exact List.mem_singleton_self _)
    (by
      show demoRegionRowF ∈ [demoRegionRowF]
      exact List.mem_singleton_self _)

theorem mem_sortDescBy {key : CountryRow → ℚ} {l : List CountryRow}
    {r : CountryRow} : r ∈ sortDescBy key l ↔ r ∈ l := by
  unfold sortDescBy
  rw [List.mem_reverse, List.mem_insertionSort]

theorem sortDescBy_perm (key : CountryRow → ℚ) (l : List CountryRow) :
    (sortDescBy key l).Perm l :=
  (List.reverse_perm _).trans (List.perm_insertionSort _ l)

/-- A raw row whose EGP growth (200%) differs from its USD growth (50%). -/
def mixedRow : DataRow :=
  { hsCode := "854460", description := "wire", country := "Italy",
    region := "Europe", unit := "KG", qty2024 := 1, egp2024 := 100,
    usd2024 := 100, qty2025 := 1, egp2025 := 300, usd2025 := 150,
    totalQty := 2, totalEgp := 400, totalUsd := 250 }

/-- C2 counterexample: with the currency flag on EGP, the growth column
consumed downstream still reports the USD-derived 50%, not the 200% the
row's M-EGP 2024/2025 values give under the three-way policy. -/
theorem C2_counterexample :
    (displayTable (filteredView (countryRollup [mixedRow]) ["Europe"] ["Italy"])
      false).map (·.growth) = [50] ∧
    yoyPolicy (mkCountryRow [mixedRow] ("Europe", "Italy")).egp2024
      (mkCountryRow [mixedRow] ("Europe", "Italy")).egp2025 = 200 ∧
    (50 : ℚ) ≠ 200 := by
  refine ⟨?_, ?_, by norm_num⟩
  · have hd : (displayTable (filteredView (countryRollup [mixedRow])
        ["Europe"] ["Italy"]) false).map (·.growth)
        = [(mkCountryRow [mixedRow] ("Europe", "Italy")).yoyGrowth] := rfl
    rw [hd]
    norm_num [mkCountryRow, keyGroup, sumCol, rowKey, mixedRow, yoyPolicy,
      List.filter_cons, List.sum_cons]
  · norm_num [mkCountryRow, keyGroup, sumCol, rowKey, mixedRow, yoyPolicy,
      List.filter_cons, List.sum_cons]

/-- C2 amended: the per-country growth consumed downstream (the filtered
rows' growth column, hence the growth chart, the data table and the CSV
cells that read it) always equals the three-way policy applied to the
row's USD sums; the currency flag redirects the value columns but not the
growth column. -/
theorem C2_growth_not_redirected (recs : List DataRow) (selR selC : List String)
    (m : Bool) (r : CountryRow) (d : DisplayRow)
    (hr : r ∈ filteredView (countryRollup recs) selR selC)
    (hd : d ∈ displayTable (filteredView (countryRollup recs) selR selC) m) :
    r.yoyGrowth = yoyPolicy r.usd2024 r.usd2025 ∧
    ∃ r2 ∈ filteredView (countryRollup recs) selR selC,
      d.growth = yoyPolicy r2.usd2024 r2.usd2025 ∧ d.country = r2.country := by
  have hsub : ∀ x, x ∈ filteredView (countryRollup recs) selR selC →
      x ∈ countryRollup recs := fun x hx => (List.mem_filter.mp hx).1
  constructor
  · exact yoyGrowth_eq_policy (hsub r hr)
  · rcases List.mem_map.mp hd with ⟨r2, hr2, rfl⟩
    have hr2f : r2 ∈ filteredView (countryRollup recs) selR selC :=
      mem_sortDescBy.mp hr2
    exact ⟨r2, hr2f, yoyGrowth_eq_policy (hsub r2 hr2f), rfl⟩

theorem C2_growth_not_redirected_witness :
    demoCountryRow.yoyGrowth =
      yoyPolicy demoCountryRow.usd2024 demoCountryRow.usd2025 ∧
    ∃ r2 ∈ filteredView (countryRollup [demoDataRow]) ["Europe"] ["Germany"],
      (toDisplayRow true demoCountryRow).growth =
        yoyPolicy r2.usd2024 r2.usd2025 ∧
      (toDisplayRow true demoCountryRow).country = r2.country :=
  C2_growth_not_redirected [demoDataRow] ["Europe"] ["Germany"] true
    demoCountryRow (toDisplayRow true demoCountryRow)
    (by
      show demoCountryRow ∈ [demoCountryRow]
      exact List.mem_singleton_self _)
    (by
      show toDisplayRow true demoCountryRow ∈ [toDisplayRow true demoCountryRow]
      exact List.mem_singleton_self _)

/-- First original rollup row with total 300. -/
def rowA : CountryRow :=
  { region := "Europe", country := "Alpha", usd2024 := 100, usd2025 := 200,
    totalUsd := 300, egp2024 := 100, egp2025 := 200, totalEgp := 300,
    qty2024 := 1, qty2025 := 1, totalQty := 2, yoyGrowth := 100 }

/-- Second original rollup row, tied with `rowA` at total 300. -/
def rowB : CountryRow :=
  { region := "Asia", country := "Beta", usd2024 := 150, usd2025 := 150,
    totalUsd := 300, egp2024 := 150, egp2025 := 150, totalEgp := 300,
    qty2024 := 1, qty2025 := 1, totalQty := 2, yoyGrowth := 0 }

/-- Third original rollup row with total 100. -/
def rowC : CountryRow :=
  { region := "GCC", country := "Gamma", usd2024 := 50, usd2025 := 50,
    totalUsd := 100, egp2024 := 50, egp2025 := 50, totalEgp := 100,
    qty2024 := 1, qty2025 := 1, totalQty := 2, yoyGrowth := 0 }

/-- C4 counterexample: with totals [300, 300, 100] the two tied countries
receive ranks 1 and 2 in REVERSED original order — pandas implements the
descending sort by reversing a stable ascending argsort — so the claimed
"ties keep original row order" fails: the first original row ranks 2,
not 1. -/
theorem C4_counterexample :
    countryRank [rowA, rowB, rowC] true "Alpha" = some 2 ∧
    countryRank [rowA, rowB, rowC] true "Beta" = some 1 ∧
    countryRank [rowA, rowB, rowC] true "Gamma" = some 3 ∧
    countryRank [rowA, rowB, rowC] true "Alpha" ≠ some 1 := by
  refine ⟨rfl, rfl, rfl, ?_⟩
  intro h
  exact absurd (rfl.symm.trans h) (by decide)

/-- C4 amended: the rank is the 1-based position in the unfiltered rollup
sorted descending by the active-currency total, with the `'-'` sentinel
(`none`) exactly for absent countries and every assigned rank within 1..n;
but ties do NOT keep original row order — the sort reverses a stable
ascending argsort, so on totals [300, 300, 100] the tied countries rank in
reversed original order while the 100-total country still ranks last. -/
theorem C4_rank_contract (crows : List CountryRow) (m : Bool) (pick : String) :
    (countryRank crows m pick = none ↔ pick ∉ crows.map (·.country)) ∧
    (∀ k, countryRank crows m pick = some k → 1 ≤ k ∧ k ≤ crows.length) ∧
    countryRank [rowA, rowB, rowC] true "Beta" = some 1 ∧
    countryRank [rowA, rowB, rowC] true "Alpha" = some 2 ∧
    countryRank [rowA, rowB, rowC] true "Gamma" = some 3 := by
  refine ⟨?_, ?_, rfl, rfl, rfl⟩
  · unfold countryRank
    rw [Option.map_eq_none', List.findIdx?_eq_none_iff]
    constructor
    · intro h hmem
      rcases List.mem_map.mp hmem with ⟨x, hx, hxc⟩
      have hfalse := h x (mem_sortDescBy.mpr hx)
      rw [decide_eq_false_iff_not] at hfalse
      exact hfalse hxc
    · intro h x hx
      rw [decide_eq_false_iff_not]
      intro hxc
      exact h (List.mem_map.mpr ⟨x, mem_sortDescBy.mp hx, hxc⟩)
  · intro k hk
    unfold countryRank at hk
    rcases Option.map_eq_some'.mp hk with ⟨i, hi, hki⟩
    have hlt := (List.findIdx?_eq_some_iff_findIdx_eq.mp hi).1
    have hlen : (sortDescBy (valTotal m) crows).length = crows.length :=
      (sortDescBy_perm _ _).length_eq
    omega

theorem C4_rank_contract_witness :
    (countryRank [rowA, rowB, rowC] true "Delta" = none ↔
      "Delta" ∉ [rowA, rowB, rowC].map (·.country)) ∧
    (1 ≤ 2 ∧ 2 ≤ ([rowA, rowB, rowC] : List CountryRow).length) := by
  constructor
  · exact (C4_rank_contract [rowA, rowB, rowC] true "Delta").1
  · exact (C4_rank_contract [rowA, rowB, rowC] true "Alpha").2.1 2 rfl

/-- A rollup row with no 2024 value and a positive 2025 value. -/
def zeroRow : CountryRow :=
  { region := "Asia", country := "Nepal", usd2024 := 0, usd2025 := 5,
    totalUsd := 5, egp2024 := 0, egp2025 := 5, totalEgp := 5,
    qty2024 := 0, qty2025 := 1, totalQty := 1, yoyGrowth := 100 }

/-- A raw row with no 2024 value and a positive 2025 value. -/
def zeroDataRow : DataRow :=
  { hsCode := "854449", description := "cable", country := "Nepal",
    region := "Asia", unit := "KG", qty2024 := 0, egp2024 := 0,
    usd2024 := 0, qty2025 := 1, egp2025 := 5, usd2025 := 5,
    totalQty := 1, totalEgp := 5, totalUsd := 5 }

/-- C5 counterexample: on a 2024 total of 0 with a 2025 total of 5 the
three-way policy of par. 3 mandates 100.0, but the overall KPI growth, the
region growth and the picked-country growth all fall back to 0. -/
theorem C5_counterexample :
    yoyOverall [zeroRow] true = some 0 ∧
    regYoy [zeroRow] true "Asia" = some 0 ∧
    ctryYoy [zeroDataRow] true "Nepal" = some 0 ∧
    yoyPolicy 0 5 = 100 ∧ (0 : ℚ) ≠ 100 := by
  refine ⟨?_, ?_, ?_, ?_, by norm_num⟩
  · norm_num [yoyOverall, sumColC, val2024, zeroRow, List.sum_cons]
  · norm_num [regYoy, sumColC, val2024, zeroRow, List.sum_cons,
      List.filter_cons]
  · norm_num [ctryYoy, zeroDataRow, List.sum_cons, List.filter_cons]
  · norm_num [yoyPolicy]

/-- C5 amended: no growth computation in the pipeline can raise a division
error — every division is guarded by a positivity test on its divisor —
and the per-rollup-row column follows the three-way policy, but the other
growths do not: `yoy_overall` and `reg_yoy` fall back to 0 whenever the
2024 total is not positive (never 100), and `ctry_yoy` falls back to 0
whenever the 2024 sum is at most 0.001. -/
theorem C5_growth_policies (frows : List CountryRow) (recs : List DataRow)
    (m : Bool) (pick : String) (r : CountryRow)
    (hr : r ∈ countryRollup recs) :
    (yoyOverall frows m).isSome ∧ (regYoy frows m pick).isSome ∧
    (ctryYoy recs m pick).isSome ∧
    r.yoyGrowth = yoyPolicy r.usd2024 r.usd2025 ∧
    (¬ 0 < sumColC frows (val2024 m) → yoyOverall frows m = some 0) ∧
    (¬ 0 < sumColC (frows.filter (fun r2 => r2.region = pick)) (val2024 m) →
      regYoy frows m pick = some 0) ∧
    (¬ (0.001 : ℚ) <
        ((recs.filter (fun r2 => r2.country = pick)).map
          (fun r2 => if m then r2.usd2024 else r2.egp2024)).sum →
      ctryYoy recs m pick = some 0) := by
  refine ⟨?_, ?_, ?_, yoyGrowth_eq_policy hr, ?_, ?_, ?_⟩
  · dsimp only [yoyOverall]
    split
    · next h => simp [safeDiv, ne_of_gt h]
    · simp
  · dsimp only [regYoy]
    split
    · next h => simp [safeDiv, ne_of_gt h]
    · simp
  · have hgen : ∀ t24 t25 : ℚ,
        (if t24 > 0.001 then (safeDiv (t25 - t24) t24).map (· * 100)
          else some 0).isSome := by
      intro t24 t25
      split
      · next h =>
        have h0 : (0 : ℚ) < t24 :=
          lt_trans (by norm_num : (0 : ℚ) < 0.001) h
        simp [safeDiv, ne_of_gt h0]
      · simp
    exact hgen _ _
  · intro h
    dsimp only [yoyOverall]
    rw [if_neg h]
  · intro h
    dsimp only [regYoy]
    rw [if_neg h]
  · intro h
    dsimp only [ctryYoy]
    rw [if_neg h]

theorem C5_growth_policies_witness :
    (yoyOverall [zeroRow] true).isSome ∧ (regYoy [zeroRow] true "Asia").isSome ∧
    (ctryYoy [demoDataRow] true "Germany").isSome ∧
    demoCountryRow.yoyGrowth =
      yoyPolicy demoCountryRow.usd2024 demoCountryRow.usd2025 ∧
    (¬ 0 < sumColC [zeroRow] (val2024 true) → yoyOverall [zeroRow] true = some 0) ∧
    (¬ 0 < sumColC (List.filter (fun r2 => r2.region = "Asia") [zeroRow])
        (val2024 true) → regYoy [zeroRow] true "Asia" = some 0) ∧
    (¬ (0.001 : ℚ) <
        ((List.filter (fun r2 => r2.country = "Germany") [demoDataRow]).map
          (fun r2 => if true then r2.usd2024 else r2.egp2024)).sum →
      ctryYoy [demoDataRow] true "Germany" = some 0) := by
  have h1 := C5_growth_policies [zeroRow] [demoDataRow] true "Germany"
    demoCountryRow demoCountryRow_mem
  have h2 := C5_growth_policies [zeroRow] [demoDataRow] true "Asia"
    demoCountryRow demoCountryRow_mem
  exact ⟨h1.1, h2.2.1, h1.2.2.1, h1.2.2.2.1, h1.2.2.2.2.1,
    h2.2.2.2.2.2.1, h1.2.2.2.2.2.2⟩

/-- C9 counterexample: `to_csv` is called on the raw `df_display` values,
so for the demo table the CSV writes the growth cell as `50.0` — not the
claimed signed one-decimal `+50.0%` — and the 2024 currency cell as
`100.0`, not the claimed two-decimal `100.00`; the claimed formats are the
`style.format` strings applied only to the on-screen table. -/
theorem C9_counterexample :
    csvLines [crowDemo] true =
      ["Rank,Region,Country,2024 (M-USD),2025 (M-USD),Total (M-USD),YoY Growth %",
       "1,Europe,Germany,100.0,150.0,250.0,50.0"] ∧
    fmtSigned1 (50 : ℚ) = "+50.0%" ∧ fmtFixed2 (100 : ℚ) = "100.00" ∧
    ("50.0" : String) ≠ "+50.0%" ∧ ("100.0" : String) ≠ "100.00" := by
  exact ⟨rfl, rfl, rfl, by decide, by decide⟩

/-- C9 amended: the CSV export is comma-separated with the header line
first and one line per display row; but each numeric cell carries pandas'
default float rendering of the raw value — not the two-decimal currency
format nor the signed one-decimal growth format, which `style.format`
applies only to the on-screen table. -/
theorem C9_csv_layout (frows : List CountryRow) (m : Bool) (i : ℕ)
    (d : DisplayRow) (hd : (i, d) ∈ (displayTable frows m).enum) :
    (csvLines frows m).head? = some (csvHeader m) ∧
    (csvLines frows m).length = (displayTable frows m).length + 1 ∧
    csvLine i d ∈ csvLines frows m ∧
    csvLine i d = String.intercalate "," (csvFields i d) ∧
    (csvFields i d).getLast? = some (floatStr d.growth) ∧
    (csvFields i d)[3]? = some (floatStr d.v2024) := by
  refine ⟨rfl, ?_, ?_, rfl, rfl, rfl⟩
  · simp [csvLines, List.enum_length]
  · exact List.mem_cons_of_mem _ (List.mem_map.mpr ⟨(i, d), hd, rfl⟩)

theorem C9_csv_layout_witness :
    (csvLines [crowDemo] true).head? = some (csvHeader true) ∧
    (csvLines [crowDemo] true).length = (displayTable [crowDemo] true).length + 1 ∧
    csvLine 0 (toDisplayRow true crowDemo) ∈ csvLines [crowDemo] true ∧
    csvLine 0 (toDisplayRow true crowDemo) =
      String.intercalate "," (csvFields 0 (toDisplayRow true crowDemo)) ∧
    (csvFields 0 (toDisplayRow true crowDemo)).getLast? =
      some (floatStr (toDisplayRow true crowDemo).growth) ∧
    (csvFields 0 (toDisplayRow true crowDemo))[3]? =
      some (floatStr (toDisplayRow true crowDemo).v2024) :=
  C9_csv_layout [crowDemo] true 0 (toDisplayRow true crowDemo)
    (by
      show _ ∈ [(0, toDisplayRow true crowDemo)]
      exact List.mem_singleton_self _)

end Dashboard
